import Mathlib

/-!
Verification of the hohm.studio landmark-scoring and session-state engine.

A shallow embedding, in Lean 4, of the scoring, classification, timing and
alerting code of the repository:

* the yoga session controller (`src/unnamed/part_001`, class `YogaSession`):
  `calculateAngleMatch`, `calculateBestVariationMatch`, `updateFormStatus`,
  `smoothLandmarks`, the one-second timer tick of `runTimerLoop`,
  `checkReadyForHold` / `checkEstablishingTransition`, `calculateFinalGrade`;
* the desk-posture tracker (`src/static/js/yoga-interpolation.js`):
  `smoothLandmarks`, `checkPostureImmediate`, `triggerPostureAlert`,
  `sendPostureNotification` and the alert-frequency presets.

JavaScript numbers are modelled as rationals (`ℚ`); where NaN behaviour
matters (invalid-geometry handling) a dedicated `JsNum` type with an explicit
NaN element is used.  JavaScript objects holding named angle entries are
modelled as association lists keyed by `String`; absent object properties and
absent array entries are modelled with `Option`.
-/

/-! ## Four-tier form classifier and posture zones -/

/-- The four form-quality tiers of the pose-hold classifier
(`currentFormLevel` in `src/unnamed/part_001`). -/
inductive FormLevel
  | perfect
  | good
  | okay
  | needsWork
deriving DecidableEq, Repr

/-- Function `updateFormStatus` (src/unnamed/part_001 lines 2334-2362): maps the match
score to the four-tier form level.  The DOM/colour updates of the source are
display-only; the classification assigned to `this.currentFormLevel` is the
value modelled here. -/
def updateFormStatus (matchScore : ℚ) : FormLevel :=
  if matchScore ≥ 65 then .perfect
  else if matchScore ≥ 45 then .good
  else if matchScore ≥ 25 then .okay
  else .needsWork

/-- The assignment `this.isFormGood = this.currentFormLevel === 'perfect' || this.currentFormLevel === 'good'`
(src/unnamed/part_001 lines 1899 and 1928): the tiers that count as good form
for timer gating. -/
def isGoodForm (l : FormLevel) : Bool :=
  l == FormLevel.perfect || l == FormLevel.good

/-- The three posture zones of the desk-posture tracker
(`zone` in `checkPostureImmediate`). -/
inductive Zone
  | good
  | warning
  | bad
deriving DecidableEq, Repr

/-- Zone classification from the smoothed deviation
(src/static/js/yoga-interpolation.js lines 1353-1363). -/
def classifyZone (deviationAmount : ℚ) : Zone :=
  if deviationAmount < 0.8 then .good
  else if deviationAmount < 1.5 then .warning
  else .bad

/-! ## Pose-hold angle matching (`calculateAngleMatch`) -/

/-- A reference-angle map: the entries of the JS object `refAngles`, in
property order.  A `none` value is a JSON `null` reference angle. -/
abbrev RefAngles := List (String × Option ℚ)

/-- A user-angle map: `userAngles[key]` is `none` when the property is
undefined. -/
abbrev UserAngles := String → Option ℚ

/-- One folded absolute angle difference
(src/unnamed/part_001 lines 2525-2526):
`diff = |ref - user|; if (diff > 180) diff = 360 - diff`. -/
def foldedDiff (r u : ℚ) : ℚ :=
  let d := |r - u|
  if d > 180 then 360 - d else d

/-- The folded differences collected by the loop of `calculateAngleMatch`
(src/unnamed/part_001 lines 2523-2530): one entry per reference angle that is
non-null and defined in the user map. -/
def matchedDiffs (refAngles : RefAngles) (userAngles : UserAngles) : List ℚ :=
  refAngles.filterMap fun kv =>
    match kv.2, userAngles kv.1 with
    | some r, some u => some (foldedDiff r u)
    | _, _ => none

/-- Function `calculateAngleMatch` (src/unnamed/part_001 lines 2519-2542):
returns 0 when no angle pairs are defined, otherwise
`max(0, 100 - (avgDiff / 150 * 100))` over the average folded difference. -/
def calculateAngleMatch (refAngles : RefAngles) (userAngles : UserAngles) : ℚ :=
  let ds := matchedDiffs refAngles userAngles
  if ds.length = 0 then 0
  else max 0 (100 - (ds.sum / (ds.length : ℚ) / 150 * 100))

/-- Average folded angle difference (the `avgDiff` of the source). -/
def avgDiff (refAngles : RefAngles) (userAngles : UserAngles) : ℚ :=
  (matchedDiffs refAngles userAngles).sum /
    ((matchedDiffs refAngles userAngles).length : ℚ)

/-! ## Final grade (`calculateFinalGrade`) -/

/-- The four cumulative form-time counters (`this.formTimeTracking` /
`this.currentPoseFormTime` in src/unnamed/part_001). -/
structure FormTimeTracking where
  perfect : ℕ
  good : ℕ
  okay : ℕ
  needsWork : ℕ
deriving DecidableEq, Repr

/-- Total counted seconds: the sum of the four ledger counters. -/
def FormTimeTracking.total (t : FormTimeTracking) : ℕ :=
  t.perfect + t.good + t.okay + t.needsWork

/-- The weighted score of `calculateFinalGrade`
(src/unnamed/part_001 line 2947):
`(perfect*100 + good*85 + okay*70 + needsWork*40) / total`. -/
def weightedScore (t : FormTimeTracking) : ℚ :=
  ((t.perfect * 100 + t.good * 85 + t.okay * 70 + t.needsWork * 40 : ℕ) : ℚ) /
    (t.total : ℚ)

/-- The grade record returned by `calculateFinalGrade`: letter, label, icon. -/
structure GradeInfo where
  letter : String
  label : String
  icon : String
deriving DecidableEq, Repr

/-- Function `calculateFinalGrade` (src/unnamed/part_001 lines 2938-2957). -/
def calculateFinalGrade (t : FormTimeTracking) : GradeInfo :=
  if t.total = 0 then ⟨"N/A", "No Data", "question-circle"⟩
  else
    let score := weightedScore t
    if score ≥ 95 then ⟨"A+", "Outstanding", "star-fill"⟩
    else if score ≥ 90 then ⟨"A", "Excellent", "star"⟩
    else if score ≥ 85 then ⟨"B+", "Great", "trophy"⟩
    else if score ≥ 80 then ⟨"B", "Good", "hand-thumbs-up"⟩
    else if score ≥ 75 then ⟨"C+", "Nice Effort", "lightning-charge"⟩
    else if score ≥ 70 then ⟨"C", "Keep Practicing", "person-arms-up"⟩
    else if score ≥ 60 then ⟨"D", "Getting There", "flower1"⟩
    else ⟨"F", "Keep Trying", "arrow-up-circle"⟩

/-- The letter breakpoints exactly as the specification states them
(95 to A+, 90 to A, 85 to B+, 80 to B, 75 to C+, 70 to C, 60 to D, else F).
Stated independently of `calculateFinalGrade` for comparison. -/
def specLetterOfScore (score : ℚ) : String :=
  if score ≥ 95 then "A+"
  else if score ≥ 90 then "A"
  else if score ≥ 85 then "B+"
  else if score ≥ 80 then "B"
  else if score ≥ 75 then "C+"
  else if score ≥ 70 then "C"
  else if score ≥ 60 then "D"
  else "F"

/-! ## Landmark smoothers -/

/-- One landmark object: `{x, y, z, visibility}`.  `z` and `visibility` are
optional properties (`undefined` is `none`); the source reads `z` through
`(… .z || 0)`. -/
structure LM where
  x : ℚ
  y : ℚ
  z : Option ℚ
  visibility : Option ℚ
deriving DecidableEq, Repr

/-- The session-path smoothing factor
(`this.smoothingFactor = 0.25`, src/unnamed/part_001 line 96). -/
def smoothingFactor : ℚ := 0.25

/-- The posture-path smoothing factor
(`LANDMARK_SMOOTH_FACTOR = 0.25`, src/static/js/yoga-interpolation.js line 658). -/
def LANDMARK_SMOOTH_FACTOR : ℚ := 0.25

/-- The target-overlay smoothing factor
(`this.targetSmoothingFactor = 0.15`, src/unnamed/part_001 line 100). -/
def targetSmoothingFactor : ℚ := 0.15

/-- One EMA update of the session smoother
(src/unnamed/part_001 lines 2013-2018): x, y and z are blended with factor
`α`; visibility is copied from the raw landmark. -/
def smoothLM (α : ℚ) (s r : LM) : LM :=
  { x := s.x * (1 - α) + r.x * α
    y := s.y * (1 - α) + r.y * α
    z := some ((s.z.getD 0) * (1 - α) + (r.z.getD 0) * α)
    visibility := r.visibility }

/-- One EMA update of the posture smoother
(src/static/js/yoga-interpolation.js lines 1229-1233): the new object carries
only x, y and z; no visibility property is written. -/
def smoothLMPosture (α : ℚ) (s r : LM) : LM :=
  { x := s.x * (1 - α) + r.x * α
    y := s.y * (1 - α) + r.y * α
    z := some ((s.z.getD 0) * (1 - α) + (r.z.getD 0) * α)
    visibility := none }

/-- The per-index smoothing loop shared (textually) by the session smoother
(src/unnamed/part_001 lines 2011-2020), the posture smoother
(src/static/js/yoga-interpolation.js lines 1227-1235) and their behaviour on
arbitrary JS numbers: for each index of the previous smoothed array, the
entry is updated by the blend `f` only when both the raw entry at that index
and the previous entry exist; raw entries beyond the smoothed array are
ignored and missing raw entries leave the previous value unchanged. -/
def smoothZip {β : Type} (f : β → β → β) :
    List (Option β) → List (Option β) → List (Option β)
  | [], _ => []
  | prev, [] => prev
  | s? :: ps, r? :: rs =>
      (match s?, r? with
       | some s, some r => some (f s r)
       | _, _ => s?) :: smoothZip f ps rs

/-- The per-index loop of the session smoother
(src/unnamed/part_001 lines 2011-2020). -/
def smoothStep (α : ℚ) (prev raw : List (Option LM)) : List (Option LM) :=
  smoothZip (smoothLM α) prev raw

/-- The per-index loop of the posture smoother
(src/static/js/yoga-interpolation.js lines 1227-1235); identical traversal,
but the updated entries drop the visibility property. -/
def smoothStepPosture (α : ℚ) (prev raw : List (Option LM)) : List (Option LM) :=
  smoothZip (smoothLMPosture α) prev raw

/-- Function `smoothLandmarks` of the session controller
(src/unnamed/part_001 lines 2001-2023): the state is `none` after a reset, in
which case the raw frame is deep-copied and returned unchanged; otherwise the
per-index EMA loop runs.  Returns the new smoothed state (which is also the
returned frame in the source). -/
def smoothLandmarksSession (state : Option (List (Option LM)))
    (raw : List (Option LM)) : List (Option LM) :=
  match state with
  | none => raw
  | some prev => smoothStep smoothingFactor prev raw

/-- Function `smoothLandmarks` of the posture tracker
(src/static/js/yoga-interpolation.js lines 1219-1237). -/
def smoothLandmarksPosture (state : Option (List (Option LM)))
    (raw : List (Option LM)) : List (Option LM) :=
  match state with
  | none => raw
  | some prev => smoothStepPosture LANDMARK_SMOOTH_FACTOR prev raw

/-- The smoothed target-overlay position
(`this.smoothedTargetPosition`, src/unnamed/part_001 lines 2243-2254). -/
structure TargetPosition where
  centerX : ℚ
  centerY : ℚ
  bodyHeight : ℚ
deriving DecidableEq, Repr

/-- The target-overlay smoothing update (src/unnamed/part_001 lines
2243-2254): seeded from the raw values on the first frame, then EMA-blended
with `targetSmoothingFactor`. -/
def updateSmoothedTargetPosition (α : ℚ) (state : Option TargetPosition)
    (rawCenterX rawCenterY rawBodyHeight : ℚ) : TargetPosition :=
  match state with
  | none => ⟨rawCenterX, rawCenterY, rawBodyHeight⟩
  | some p =>
      ⟨p.centerX * (1 - α) + rawCenterX * α,
       p.centerY * (1 - α) + rawCenterY * α,
       p.bodyHeight * (1 - α) + rawBodyHeight * α⟩

/-! ## Timer tick and form-time ledger (`runTimerLoop`) -/

/-- Increment the ledger counter selected by the current form level
(src/unnamed/part_001 lines 2721-2733): `perfect`, `good` and `okay` each
increment their own counter; every other value falls to `needsWork`. -/
def tickLedger (t : FormTimeTracking) : FormLevel → FormTimeTracking
  | .perfect => { t with perfect := t.perfect + 1 }
  | .good => { t with good := t.good + 1 }
  | .okay => { t with okay := t.okay + 1 }
  | .needsWork => { t with needsWork := t.needsWork + 1 }

/-- Read one ledger counter by form level. -/
def counterOf (t : FormTimeTracking) : FormLevel → ℕ
  | .perfect => t.perfect
  | .good => t.good
  | .okay => t.okay
  | .needsWork => t.needsWork

/-- The mutable fields of the one-second timer tick during an active hold. -/
structure HoldState where
  sessionElapsed : ℕ
  ledger : FormTimeTracking
  poseTimeRemaining : ℤ
  goodFormTime : ℕ
deriving DecidableEq, Repr

/-- One counted one-second tick of `runTimerLoop` during an active hold
(src/unnamed/part_001 lines 2712-2750): the session timer advances, exactly
one ledger counter (the one matching the tier) increments, and the per-item
countdown decrements only when the tier is in the good-form set
(`this.isFormGood`, which the detection loop keeps equal to
`isGoodForm currentFormLevel`); otherwise the countdown is left untouched. -/
def runTimerTick (s : HoldState) (level : FormLevel) : HoldState :=
  let s1 : HoldState :=
    { s with sessionElapsed := s.sessionElapsed + 1
             ledger := tickLedger s.ledger level }
  if isGoodForm level then
    { s1 with poseTimeRemaining := s1.poseTimeRemaining - 1
              goodFormTime := s1.goodFormTime + 1 }
  else s1

/-- Iterated counted ticks over a scripted sequence of tiers. -/
def runTicks (s : HoldState) : List FormLevel → HoldState
  | [] => s
  | l :: ls => runTicks (runTimerTick s l) ls

/-! ## Session states and the establishing / instructions transitions -/

/-- The session states of the unified flow model
(`SessionState`, src/unnamed/part_001 lines 8-24).  `activeHold` is the
`ACTIVE_HOLD: 'active'` state. -/
inductive SessState
  | loading
  | calibrating
  | countdown
  | instructions
  | transitioning
  | establishing
  | activeHold
  | pausedState
  | completeState
  | intro
  | positioning
  | transitionLegacy
deriving DecidableEq, Repr

/-- The flags read and written by `checkReadyForHold` and by the
`instructions` branch of `runTimerLoop`. -/
structure SegFlow where
  segState : SessState
  audioComplete : Bool
  formCalibrated : Bool
  poseTimerStarted : Bool
deriving DecidableEq, Repr

/-- Function `checkReadyForHold` (src/unnamed/part_001 lines 557-565): enters the hold
only when the voice audio has completed AND the form has been calibrated
(matched once, or timed out). -/
def checkReadyForHold (s : SegFlow) : SegFlow :=
  if s.audioComplete && s.formCalibrated then
    { s with segState := .activeHold, poseTimerStarted := true }
  else s

/-- The default establishing timeout
(`this.establishingTimeoutMs = 10000`, src/unnamed/part_001 line 55). -/
def establishingTimeoutMs : ℚ := 10000

/-- The default form-match threshold
(`this.formMatchThreshold = 0.45`, src/unnamed/part_001 line 56). -/
def formMatchThreshold : ℚ := 0.45

/-- The `instructions` branch of the one-second timer tick
(src/unnamed/part_001 lines 2590-2605): when form is good and not yet
calibrated, mark calibrated and call `checkReadyForHold`; then, when the
elapsed time exceeds the establishing timeout and the flag is still unset,
mark calibrated and call `checkReadyForHold`.  Display updates are omitted.
`isFormGood` and `elapsedMs` are the tick inputs. -/
def instructionsTick (s : SegFlow) (isFormGood : Bool)
    (elapsedMs timeoutMs : ℚ) : SegFlow :=
  if s.segState ≠ .instructions then s
  else
    let s1 := if isFormGood && !s.formCalibrated then
                checkReadyForHold { s with formCalibrated := true }
              else s
    if elapsedMs > timeoutMs && !s1.formCalibrated then
      checkReadyForHold { s1 with formCalibrated := true }
    else s1

/-- The voice-completion continuation of `loadSegment`
(src/unnamed/part_001 lines 541-549): when playback (or its error handler)
finishes, `audioComplete` is set and `checkReadyForHold` runs. -/
def onAudioComplete (s : SegFlow) : SegFlow :=
  checkReadyForHold { s with audioComplete := true }

/-- Function `checkEstablishingTransition` (src/unnamed/part_001 lines 645-664):
from `establishing`, enter the active hold as soon as the form score meets
the threshold OR the establishing timeout has elapsed.  `matchScore` is on
the 0-100 scale; the source compares `matchScore / 100` with the
threshold. -/
def checkEstablishingTransition (s : SegFlow) (matchScore threshold : ℚ)
    (elapsedMs timeoutMs : ℚ) : SegFlow :=
  if s.segState ≠ .establishing then s
  else if matchScore / 100 ≥ threshold || elapsedMs ≥ timeoutMs then
    { s with segState := .activeHold, poseTimerStarted := true }
  else s

/-! ## Posture deviation scoring (`checkPostureImmediate`) -/

/-- The landmarks read by the deviation computation of
`checkPostureImmediate`: index 0 (nose), 11 (left shoulder) and
12 (right shoulder), each with x, y and optional z. -/
structure PostureFrame where
  nose : LM
  leftShoulder : LM
  rightShoulder : LM
deriving DecidableEq, Repr

/-- The seven named per-metric severities of `checkPostureImmediate`
(src/static/js/yoga-interpolation.js lines 1258-1322), in object-property
order: each is `max(0, rawQuantity - tolerance) / normalizer`, where every
raw quantity is a change relative to the calibrated frame. -/
def rawSeverities (current ideal : PostureFrame) : List (String × ℚ) :=
  let currentShoulderY := (current.leftShoulder.y + current.rightShoulder.y) / 2
  let idealShoulderY := (ideal.leftShoulder.y + ideal.rightShoulder.y) / 2
  let currentShoulderAsym := |current.leftShoulder.y - current.rightShoulder.y|
  let idealShoulderAsym := |ideal.leftShoulder.y - ideal.rightShoulder.y|
  let currentNoseZ := current.nose.z.getD 0
  let idealNoseZ := ideal.nose.z.getD 0
  let currentShoulderZ := ((current.leftShoulder.z.getD 0) + (current.rightShoulder.z.getD 0)) / 2
  let idealShoulderZ := ((ideal.leftShoulder.z.getD 0) + (ideal.rightShoulder.z.getD 0)) / 2
  let forwardHeadDelta := (currentShoulderZ - currentNoseZ) - (idealShoulderZ - idealNoseZ)
  let depthChange := |currentShoulderZ - idealShoulderZ|
  let currentShoulderZDiff := |(current.leftShoulder.z.getD 0) - (current.rightShoulder.z.getD 0)|
  let idealShoulderZDiff := |(ideal.leftShoulder.z.getD 0) - (ideal.rightShoulder.z.getD 0)|
  let bodyTwist := |currentShoulderZDiff - idealShoulderZDiff|
  let currentCenterX := (current.leftShoulder.x + current.rightShoulder.x) / 2
  let idealCenterX := (ideal.leftShoulder.x + ideal.rightShoulder.x) / 2
  let lateralShift := |currentCenterX - idealCenterX|
  let headLateralShift := |current.nose.x - ideal.nose.x|
  let shoulderDrop := max 0 (currentShoulderY - idealShoulderY)
  let headDrop := max 0 (current.nose.y - ideal.nose.y)
  let shoulderTilt := |currentShoulderAsym - idealShoulderAsym|
  [ ("forwardHead", max 0 (|forwardHeadDelta| - 0.07) / 0.08)
  , ("depth", max 0 (depthChange - 0.10) / 0.10)
  , ("twist", max 0 (bodyTwist - 0.06) / 0.08)
  , ("shoulderDrop", max 0 (shoulderDrop - 0.06) / 0.07)
  , ("headDrop", max 0 (headDrop - 0.07) / 0.08)
  , ("tilt", max 0 (shoulderTilt - 0.05) / 0.06)
  , ("lateral", max 0 (max lateralShift headLateralShift - 0.08) / 0.08) ]

/-- The `reduce` over `Object.entries(severities)`
(src/static/js/yoga-interpolation.js lines 1325-1326): keeps the entry with
the strictly greater value, starting from `{key: 'none', val: 0}`. -/
def worstMetric (current ideal : PostureFrame) : String × ℚ :=
  (rawSeverities current ideal).foldl
    (fun worst kv => if kv.2 > worst.2 then kv else worst) ("none", 0)

/-- Value `rawDeviation` (src/static/js/yoga-interpolation.js line 1328): the value
of the worst metric. -/
def rawDeviation (current ideal : PostureFrame) : ℚ :=
  (worstMetric current ideal).2

/-- The deadbanded EMA of the deviation
(src/static/js/yoga-interpolation.js lines 1330-1335): the smoothed value
moves only when the raw deviation differs from it by more than 0.03, and then
by `smoothed * 0.75 + raw * 0.25`. -/
def updateSmoothedDeviation (smoothed raw : ℚ) : ℚ :=
  if |raw - smoothed| > 0.03 then smoothed * 0.75 + raw * 0.25 else smoothed

/-! ## Posture alert throttle -/

/-- The three alert-frequency presets
(src/static/js/yoga-interpolation.js lines 2110-2120). -/
inductive AlertPreset
  | always
  | moderate
  | relaxed
deriving DecidableEq, Repr

/-- The beep cooldown selected by each preset: 0 ms, 30000 ms, 60000 ms
(src/static/js/yoga-interpolation.js lines 2111-2119). -/
def beepCooldownOfPreset : AlertPreset → ℚ
  | .always => 0
  | .moderate => 30000
  | .relaxed => 60000

/-- The notification throttle selected by each preset
(src/static/js/yoga-interpolation.js lines 2111-2120). -/
def notificationFrequencyOfPreset : AlertPreset → ℚ
  | .always => 10000
  | .moderate => 60000
  | .relaxed => 120000

/-- The alert-state variables of the posture tracker
(src/static/js/yoga-interpolation.js lines 687-702), plus two ghost logs:
`beeps` records each `playAlertSound()` call and `notifications` each
`new Notification(...)` construction, by timestamp. -/
structure AlertState where
  previousPostureZone : Zone
  lastBeepTime : ℚ
  beepCooldownMs : ℚ
  notificationsEnabled : Bool
  notificationPermissionGranted : Bool
  lastNotificationTime : ℚ
  notificationFrequencyMs : ℚ
  beeps : List ℚ
  notifications : List ℚ
deriving DecidableEq, Repr

/-- Function `sendPostureNotification` (src/static/js/yoga-interpolation.js lines
887-916): returns unchanged when notifications are disabled, throttled, or
permission is missing; otherwise posts a notification and stamps
`lastNotificationTime`. -/
def sendPostureNotification (s : AlertState) (now : ℚ) : AlertState :=
  if !s.notificationsEnabled then s
  else if now - s.lastNotificationTime < s.notificationFrequencyMs then s
  else if !s.notificationPermissionGranted then s
  else { s with lastNotificationTime := now, notifications := s.notifications ++ [now] }

/-- Function `triggerPostureAlert` (src/static/js/yoga-interpolation.js lines
951-968): returns unchanged while the beep cooldown is active; otherwise
beeps, stamps `lastBeepTime`, and attempts a notification. -/
def triggerPostureAlert (s : AlertState) (now : ℚ) : AlertState :=
  if s.beepCooldownMs > 0 && now - s.lastBeepTime < s.beepCooldownMs then s
  else
    sendPostureNotification
      { s with lastBeepTime := now, beeps := s.beeps ++ [now] } now

/-- The zone-transition edge of `checkPostureImmediate`
(src/static/js/yoga-interpolation.js lines 1365-1370): the alert fires only
when the zone just became `bad` and the previous frame's zone was not `bad`;
the previous zone is then updated to the current zone. -/
def postureAlertStep (s : AlertState) (zone : Zone) (now : ℚ) : AlertState :=
  let s1 := if zone = .bad ∧ s.previousPostureZone ≠ .bad then
              triggerPostureAlert s now
            else s
  { s1 with previousPostureZone := zone }

/-- Iterate the zone-transition edge over a timed sequence of zones. -/
def runPostureFrames (s : AlertState) : List (Zone × ℚ) → AlertState
  | [] => s
  | (z, t) :: rest => runPostureFrames (postureAlertStep s z t) rest

/-! ## Variation matching and tallying (`calculateBestVariationMatch`) -/

/-- A pose variation: id, display name, and optional reference angles
(`variation.reference_angles` may be absent). -/
structure Variation where
  vid : String
  vname : String
  reference_angles : Option RefAngles
deriving Repr

/-- The best-score loop of `calculateBestVariationMatch`
(src/unnamed/part_001 lines 2472-2483): starting from score 0 and no
variation, each variation with reference angles replaces the best when its
angle-match score is strictly greater. -/
def bestVariation (variations : List Variation) (user : UserAngles) :
    ℚ × Option Variation :=
  variations.foldl
    (fun acc v =>
      match v.reference_angles with
      | none => acc
      | some ra =>
          let score := calculateAngleMatch ra user
          if score > acc.1 then (score, some v) else acc)
    (0, none)

/-- The angle-match score a single variation contributes: 0 when it declares
no reference angles (such a variation can never win the strict-inequality
fold, and every angle-match score is nonnegative). -/
def variationScore (user : UserAngles) (v : Variation) : ℚ :=
  match v.reference_angles with
  | none => 0
  | some ra => calculateAngleMatch ra user

/-- The update `this.variationMatchCounts[varId] = (this.variationMatchCounts[varId] || 0) + 1`
(src/unnamed/part_001 line 2488) over an insertion-ordered association
list. -/
def bumpCount : List (String × ℕ) → String → List (String × ℕ)
  | [], k => [(k, 1)]
  | (k', n) :: rest, k =>
      if k' = k then (k', n + 1) :: rest else (k', n) :: bumpCount rest k

/-- The expression `Math.max(...Object.values(this.variationMatchCounts))`
(src/unnamed/part_001 line 2491); the count map is nonempty at the call
site, so the fold from 0 over the nonnegative counts is the maximum. -/
def maxCount (counts : List (String × ℕ)) : ℕ :=
  (counts.map Prod.snd).foldl max 0

/-- The tally state: the per-variation frame counts and the session-long
matched-variation label `{id, name}`. -/
structure VariationTally where
  counts : List (String × ℕ)
  label : Option (String × String)
deriving DecidableEq, Repr

/-- The tracking block of `calculateBestVariationMatch`
(src/unnamed/part_001 lines 2485-2498): when a best variation exists and its
score is at least 45, its count is bumped, and the label switches to it
exactly when its new count equals the running maximum. -/
def updateVariationTracking (t : VariationTally) (bestScore : ℚ)
    (best : Option Variation) : VariationTally :=
  match best with
  | none => t
  | some v =>
      if bestScore ≥ 45 then
        let counts' := bumpCount t.counts v.vid
        if (counts'.lookup v.vid).getD 0 = maxCount counts' then
          ⟨counts', some (v.vid, v.vname)⟩
        else ⟨counts', t.label⟩
      else t

/-- Function `calculateBestVariationMatch` for one frame
(src/unnamed/part_001 lines 2470-2501): computes the best score and
variation, updates the tally, and returns the best score. -/
def variationFrameStep (variations : List Variation) (t : VariationTally)
    (user : UserAngles) : ℚ × VariationTally :=
  let best := bestVariation variations user
  (best.1, updateVariationTracking t best.1 best.2)

/-- Iterate `variationFrameStep` over a sequence of frames (each given by its
extracted user angles). -/
def runVariationFrames (variations : List Variation) (t : VariationTally) :
    List UserAngles → VariationTally
  | [] => t
  | u :: us => runVariationFrames variations (variationFrameStep variations t u).2 us

/-! ## JavaScript numbers with NaN (invalid-geometry handling) -/

/-- A JavaScript number: either NaN or a finite rational value. -/
inductive JsNum
  | nan
  | val (q : ℚ)
deriving DecidableEq, Repr

/-- JavaScript addition: NaN absorbs. -/
def JsNum.add : JsNum → JsNum → JsNum
  | .val a, .val b => .val (a + b)
  | _, _ => .nan

/-- JavaScript multiplication by a finite constant: NaN absorbs.  (The
smoothing factors are finite literals, so `NaN * 0.75` is NaN.) -/
def JsNum.mul : JsNum → JsNum → JsNum
  | .val a, .val b => .val (a * b)
  | _, _ => .nan

/-- Reading `value || 0` on an optional JS number: `undefined` and falsy values
(NaN and 0) give 0. -/
def jsOrZero : Option JsNum → JsNum
  | none => .val 0
  | some .nan => .val 0
  | some (.val q) => .val q

/-- Guard `isValidCoord` (src/unnamed/part_001 line 2128):
`typeof val === 'number' && !isNaN(val) && isFinite(val)`.  This guard exists
only in the target-overlay renderer `drawTargetPose`, not on the scoring or
smoothing path. -/
def isValidCoord : JsNum → Bool
  | .nan => false
  | .val _ => true

/-- A landmark with JavaScript-number coordinates. -/
structure LMJs where
  x : JsNum
  y : JsNum
  z : Option JsNum
  visibility : Option JsNum
deriving DecidableEq, Repr

/-- One EMA update of the session smoother over JavaScript numbers
(src/unnamed/part_001 lines 2013-2018).  No coordinate is validated: a NaN
in `x` or `y` of the raw landmark makes the blended coordinate NaN.  (`z` is
read through `|| 0`, which turns NaN into 0.) -/
def smoothLMJs (α : ℚ) (s r : LMJs) : LMJs :=
  { x := (s.x.mul (.val (1 - α))).add (r.x.mul (.val α))
    y := (s.y.mul (.val (1 - α))).add (r.y.mul (.val α))
    z := some (((jsOrZero s.z).mul (.val (1 - α))).add ((jsOrZero r.z).mul (.val α)))
    visibility := r.visibility }

/-- The per-index smoothing loop over JavaScript numbers: the only guard is
existence of the raw and previous entries (`rawLandmarks[i] &&
this.smoothedLandmarks[i]`); coordinate values are never inspected. -/
def smoothStepJs (α : ℚ) (prev raw : List (Option LMJs)) : List (Option LMJs) :=
  smoothZip (smoothLMJs α) prev raw

/-! ## Helper lemmas -/

/-- Elementwise behaviour of the per-index smoothing loop: the entry at `i`
is blended when both sides have one, and is otherwise the previous entry. -/
theorem smoothZip_getD {β : Type} (f : β → β → β) (prev raw : List (Option β)) (i : ℕ) :
    (smoothZip f prev raw).getD i none =
      match prev.getD i none, raw.getD i none with
      | some s, some r => some (f s r)
      | s?, _ => s? := by
  induction prev generalizing raw i with
  | nil =>
      cases raw with
      | nil => cases i <;> simp [smoothZip]
      | cons r? rs => cases i <;> simp [smoothZip]
  | cons s? ps ih =>
      cases raw with
      | nil =>
          simp only [smoothZip, List.getD_nil]
          rcases hp : (s? :: ps).getD i none with _ | v <;> rfl
      | cons r? rs =>
          cases i with
          | zero => cases s? <;> cases r? <;> simp [smoothZip]
          | succ n => simpa [smoothZip] using ih rs n

/-- An angle-match score is never negative. -/
theorem calculateAngleMatch_nonneg (ra : RefAngles) (u : UserAngles) :
    0 ≤ calculateAngleMatch ra u := by
  simp only [calculateAngleMatch]
  split
  · exact le_refl 0
  · exact le_max_left 0 _

/-- The non-degenerate branch of `calculateAngleMatch` as a formula over the
average folded difference. -/
theorem calculateAngleMatch_eq (ra : RefAngles) (u : UserAngles)
    (h : matchedDiffs ra u ≠ []) :
    calculateAngleMatch ra u = max 0 (100 - avgDiff ra u / 150 * 100) := by
  unfold calculateAngleMatch avgDiff
  rw [if_neg (by simpa using h)]

/-! ## C1: pose-match score formula, perfect score, monotonicity -/

/-- C1: for maps with at least one matched angle, `calculateAngleMatch`
equals `max(0, 100 - avgDiff/150*100)` over the folded mean absolute
difference; it is 100 when every matched difference is zero; and it never
decreases when the average difference decreases. -/
theorem calculateAngleMatch_spec (ref : RefAngles) (u u' : UserAngles)
    (h : matchedDiffs ref u ≠ []) (h' : matchedDiffs ref u' ≠ []) :
    calculateAngleMatch ref u = max 0 (100 - avgDiff ref u / 150 * 100)
    ∧ ((∀ d ∈ matchedDiffs ref u, d = 0) → calculateAngleMatch ref u = 100)
    ∧ (avgDiff ref u ≤ avgDiff ref u' →
        calculateAngleMatch ref u' ≤ calculateAngleMatch ref u) := by
  refine ⟨calculateAngleMatch_eq ref u h, ?_, ?_⟩
  · intro hz
    rw [calculateAngleMatch_eq ref u h]
    have hsum : (matchedDiffs ref u).sum = 0 := List.sum_eq_zero hz
    unfold avgDiff
    rw [hsum]
    norm_num
  · intro hmono
    rw [calculateAngleMatch_eq ref u h, calculateAngleMatch_eq ref u' h']
    exact max_le_max (le_refl 0) (by linarith)

/-- C1 witness: a single defined reference angle matched exactly gives score
100, instantiating the perfect-score clause at a concrete input. -/
theorem calculateAngleMatch_spec_witness :
    calculateAngleMatch [("left_elbow_angle", some 90)] (fun _ => some (90 : ℚ)) = 100 := by
  have h := calculateAngleMatch_spec [("left_elbow_angle", some 90)]
    (fun _ => some (90 : ℚ)) (fun _ => some (60 : ℚ))
    (by norm_num [matchedDiffs, foldedDiff, Option.some_ne_none])
    (by norm_num [matchedDiffs, foldedDiff, Option.some_ne_none])
  exact h.2.1 (by norm_num [matchedDiffs, foldedDiff])

/-! ## C2: ledger accounting and countdown gating -/

/-- Each counted tick adds exactly one second to the ledger total. -/
theorem runTimerTick_total (s : HoldState) (level : FormLevel) :
    (runTimerTick s level).ledger.total = s.ledger.total + 1 := by
  cases level <;>
    simp [runTimerTick, tickLedger, FormTimeTracking.total, isGoodForm] <;> omega

/-- The ledger total after a scripted run grows by exactly the number of
counted ticks. -/
theorem runTicks_total (levels : List FormLevel) :
    ∀ s : HoldState, (runTicks s levels).ledger.total = s.ledger.total + levels.length := by
  induction levels with
  | nil => intro s; simp [runTicks]
  | cons l ls ih =>
      intro s
      rw [runTicks, ih, runTimerTick_total]
      simp
      omega

/-- C2: a counted tick increments exactly the ledger counter matching the
tier classified at that tick (all other counters unchanged); after any
scripted sequence of N counted tiers from a zeroed ledger the four counters
sum to exactly N; and the per-item countdown decrements on a tick exactly
when the tier is in the good-form set, being left untouched (paused, not
reset) otherwise. -/
theorem formLedger_spec (s : HoldState) (level l' : FormLevel)
    (levels : List FormLevel) (pt : ℤ) (se gf : ℕ) :
    (counterOf (runTimerTick s level).ledger l' =
      counterOf s.ledger l' + if l' = level then 1 else 0)
    ∧ ((runTicks ⟨se, ⟨0, 0, 0, 0⟩, pt, gf⟩ levels).ledger.total = levels.length)
    ∧ ((runTimerTick s level).poseTimeRemaining =
        if isGoodForm level then s.poseTimeRemaining - 1 else s.poseTimeRemaining)
    ∧ ((runTimerTick s level).sessionElapsed = s.sessionElapsed + 1) := by
  refine ⟨?_, ?_, ?_, ?_⟩
  · cases level <;> cases l' <;>
      simp [runTimerTick, tickLedger, counterOf, isGoodForm]
  · rw [runTicks_total]
    simp [FormTimeTracking.total]
  · cases level <;> simp [runTimerTick, isGoodForm]
  · cases level <;> simp [runTimerTick, isGoodForm]

/-! ## C3: weighted grade and breakpoints -/

/-- C3: whenever the counters are not all zero, the letter returned by
`calculateFinalGrade` is exactly the specification's breakpoint map applied
to the weighted score `(perfect*100 + good*85 + okay*70 + needsWork*40) /
total`; and a session of 30 all-perfect counted seconds has weighted score
100 and grade A+. -/
theorem calculateFinalGrade_spec (t : FormTimeTracking) :
    ((calculateFinalGrade t).letter =
      if t.total = 0 then "N/A" else specLetterOfScore (weightedScore t))
    ∧ weightedScore ⟨30, 0, 0, 0⟩ = 100
    ∧ calculateFinalGrade ⟨30, 0, 0, 0⟩ = ⟨"A+", "Outstanding", "star-fill"⟩ := by
  refine ⟨?_, ?_, ?_⟩
  · simp only [calculateFinalGrade, specLetterOfScore]
    split_ifs <;> rfl
  · norm_num [weightedScore, FormTimeTracking.total]
  · norm_num [calculateFinalGrade, weightedScore, FormTimeTracking.total]

/-! ## C4: classifier bands -/

/-- C4: the pose-hold classifier assigns perfect exactly on scores at least
65, good exactly on `[45, 65)`, okay exactly on `[25, 45)` and needsWork
exactly below 25; exactly perfect and good count as good form; and the
posture classifier assigns good exactly below 0.8, warning exactly on
`[0.8, 1.5)` and bad exactly at or above 1.5. -/
theorem classifier_bands_spec (sc d : ℚ) (l : FormLevel) :
    (updateFormStatus sc = .perfect ↔ 65 ≤ sc)
    ∧ (updateFormStatus sc = .good ↔ 45 ≤ sc ∧ sc < 65)
    ∧ (updateFormStatus sc = .okay ↔ 25 ≤ sc ∧ sc < 45)
    ∧ (updateFormStatus sc = .needsWork ↔ sc < 25)
    ∧ (isGoodForm l = true ↔ l = .perfect ∨ l = .good)
    ∧ (classifyZone d = .good ↔ d < 0.8)
    ∧ (classifyZone d = .warning ↔ 0.8 ≤ d ∧ d < 1.5)
    ∧ (classifyZone d = .bad ↔ 1.5 ≤ d) := by
  refine ⟨?_, ?_, ?_, ?_, ?_, ?_, ?_, ?_⟩ <;>
    first
    | (cases l <;> simp [isGoodForm])
    | (simp only [updateFormStatus, classifyZone] <;>
        split_ifs <;> simp_all <;>
        first
        | linarith
        | (intro h0; linarith)
        | (exact ⟨by linarith, by linarith⟩))

/-! ## C5: instructions/establishing to active-hold transitions -/

/-- C5 counterexample: in the `instructions` phase the 10-second timeout
elapses (10001 ms > 10000 ms) while voice playback is unfinished, yet the
tick does NOT transition to the active hold: the timeout only marks the form
calibrated, and `checkReadyForHold` still requires `audioComplete`.  The
claim's condition (timeout elapsed) says the session transitions. -/
theorem instructions_timeout_counterexample :
    (10001 : ℚ) > establishingTimeoutMs ∧
    (instructionsTick ⟨.instructions, false, false, false⟩ false 10001
        establishingTimeoutMs).segState = .instructions := by
  constructor
  · norm_num [establishingTimeoutMs]
  · norm_num [instructionsTick, checkReadyForHold, establishingTimeoutMs]

/-- C5 amended: in the `instructions` phase a tick enters the active hold
exactly when voice playback has finished AND the form is not yet calibrated
AND (the form matches on this tick OR the timeout has elapsed); the
voice-completion callback enters the active hold exactly when the form was
already calibrated; and from the `establishing` phase a tick enters the
active hold exactly when the match score meets the threshold OR the timeout
has elapsed — in particular the establishing phase never outlasts the
timeout, with no voice condition there. -/
theorem establishing_transition_spec (s e : SegFlow) (fg : Bool)
    (elapsed score thr : ℚ)
    (hs : s.segState = .instructions) (he : e.segState = .establishing) :
    ((instructionsTick s fg elapsed establishingTimeoutMs).segState = .activeHold ↔
      (s.audioComplete = true ∧ s.formCalibrated = false ∧
        (fg = true ∨ elapsed > establishingTimeoutMs)))
    ∧ ((onAudioComplete s).segState = .activeHold ↔ s.formCalibrated = true)
    ∧ ((checkEstablishingTransition e score thr elapsed establishingTimeoutMs).segState
          = .activeHold ↔ (score / 100 ≥ thr ∨ elapsed ≥ establishingTimeoutMs))
    ∧ (elapsed ≥ establishingTimeoutMs →
        (checkEstablishingTransition e score thr elapsed establishingTimeoutMs).segState
          = .activeHold) := by
  refine ⟨?_, ?_, ?_, ?_⟩
  · rw [instructionsTick, if_neg (by simp [hs])]
    by_cases hfg : fg <;> by_cases hfc : s.formCalibrated <;>
      by_cases hac : s.audioComplete <;>
      by_cases hel : elapsed > establishingTimeoutMs <;>
      simp [checkReadyForHold, hs, hfg, hfc, hac, hel]
  · rw [onAudioComplete]
    by_cases hfc : s.formCalibrated <;> simp [checkReadyForHold, hs, hfc]
  · rw [checkEstablishingTransition, if_neg (by simp [he])]
    split_ifs with hcond <;> simp_all [he]
  · intro h
    rw [checkEstablishingTransition, if_neg (by simp [he]), if_pos (by simp [h])]

/-- C5 witness: with voice finished and form matching on the tick, the
instructions tick enters the active hold; and from establishing, elapsed
time at the timeout enters the active hold even at score 0. -/
theorem establishing_transition_spec_witness :
    (instructionsTick ⟨.instructions, true, false, false⟩ true 10000
        establishingTimeoutMs).segState = .activeHold
    ∧ (checkEstablishingTransition ⟨.establishing, false, false, false⟩ 0
        formMatchThreshold 10000 establishingTimeoutMs).segState = .activeHold := by
  have h := establishing_transition_spec ⟨.instructions, true, false, false⟩
    ⟨.establishing, false, false, false⟩ true 10000 0 formMatchThreshold rfl rfl
  exact ⟨h.1.mpr ⟨rfl, rfl, Or.inl rfl⟩,
    h.2.2.2 (by norm_num [establishingTimeoutMs])⟩

/-! ## C6: alert edge detection and cooldown -/

/-- Scenario 3 initial state: `moderate` preset (30 s beep cooldown, 60 s
notification throttle), notifications enabled and permitted, previous zone
good, and no alert fired since the epoch. -/
def dipInit : AlertState :=
  { previousPostureZone := .good
    lastBeepTime := 0
    beepCooldownMs := beepCooldownOfPreset .moderate
    notificationsEnabled := true
    notificationPermissionGranted := true
    lastNotificationTime := 0
    notificationFrequencyMs := notificationFrequencyOfPreset .moderate
    beeps := []
    notifications := [] }

/-- Scenario 3 frames: one good frame, a three-second dip into the bad zone,
then recovery, at one-second spacing. -/
def dipFrames : List (Zone × ℚ) :=
  [(.good, 100000), (.bad, 101000), (.bad, 102000), (.bad, 103000), (.good, 104000)]

/-- The notification attempt never touches the beep log. -/
theorem sendPostureNotification_beeps (s : AlertState) (now : ℚ) :
    (sendPostureNotification s now).beeps = s.beeps := by
  rw [sendPostureNotification]
  split_ifs <;> rfl

/-- Function `triggerPostureAlert` appends a beep exactly when the cooldown gate is
inactive. -/
theorem triggerPostureAlert_beeps (s : AlertState) (now : ℚ) :
    (triggerPostureAlert s now).beeps =
      if s.beepCooldownMs > 0 ∧ now - s.lastBeepTime < s.beepCooldownMs
      then s.beeps else s.beeps ++ [now] := by
  rw [triggerPostureAlert]
  by_cases hcool : s.beepCooldownMs > 0 ∧ now - s.lastBeepTime < s.beepCooldownMs
  · rw [if_pos (by simpa using hcool), if_pos hcool]
  · rw [if_neg (by simpa using hcool), if_neg hcool, sendPostureNotification_beeps]

/-- C6: a beep is appended on a frame exactly when the zone just became bad
from a non-bad previous zone AND the beep cooldown is inactive (zero
cooldown, or at least the cooldown elapsed since the last beep); the
previous-zone memory always updates to the current zone; the presets map to
0 ms, 30000 ms and 60000 ms cooldowns; and the three-second dip scenario
under the moderate preset fires exactly one alert (beep and notification),
on the dip's entry edge at time 101000. -/
theorem posture_alert_spec (s : AlertState) (zone : Zone) (now : ℚ) :
    ((postureAlertStep s zone now).beeps =
      if zone = .bad ∧ s.previousPostureZone ≠ .bad
          ∧ ¬(s.beepCooldownMs > 0 ∧ now - s.lastBeepTime < s.beepCooldownMs)
      then s.beeps ++ [now] else s.beeps)
    ∧ (postureAlertStep s zone now).previousPostureZone = zone
    ∧ beepCooldownOfPreset .always = 0
    ∧ beepCooldownOfPreset .moderate = 30000
    ∧ beepCooldownOfPreset .relaxed = 60000
    ∧ (runPostureFrames dipInit dipFrames).beeps = [101000]
    ∧ (runPostureFrames dipInit dipFrames).notifications = [101000] := by
  refine ⟨?_, rfl, rfl, rfl, rfl, ?_, ?_⟩
  · show (if zone = .bad ∧ s.previousPostureZone ≠ .bad
        then triggerPostureAlert s now else s).beeps = _
    by_cases hedge : zone = .bad ∧ s.previousPostureZone ≠ .bad
    · rw [if_pos hedge, triggerPostureAlert_beeps]
      by_cases hcool : s.beepCooldownMs > 0 ∧ now - s.lastBeepTime < s.beepCooldownMs
      · rw [if_pos hcool, if_neg (fun hc => hc.2.2 hcool)]
      · rw [if_neg hcool, if_pos ⟨hedge.1, hedge.2, hcool⟩]
    · rw [if_neg hedge, if_neg (fun hc => hedge ⟨hc.1, hc.2.1⟩)]
  · norm_num [runPostureFrames, postureAlertStep, triggerPostureAlert,
      sendPostureNotification, dipInit, dipFrames, beepCooldownOfPreset,
      notificationFrequencyOfPreset] <;> simp
  · norm_num [runPostureFrames, postureAlertStep, triggerPostureAlert,
      sendPostureNotification, dipInit, dipFrames, beepCooldownOfPreset,
      notificationFrequencyOfPreset] <;> simp

/-! ## C7: max-based deviation, deadbanded EMA, zero at reference -/

/-- The value kept by the strictly-greater reduce equals the running maximum
of the values. -/
theorem foldWorst_eq_foldMax (l : List (String × ℚ)) :
    ∀ acc : String × ℚ,
      (l.foldl (fun worst kv => if kv.2 > worst.2 then kv else worst) acc).2 =
        l.foldl (fun w kv => max w kv.2) acc.2 := by
  induction l with
  | nil => intro acc; rfl
  | cons kv rest ih =>
      intro acc
      rw [List.foldl_cons, List.foldl_cons, ih]
      have hstep : (if kv.2 > acc.2 then kv else acc).2 = max acc.2 kv.2 := by
        by_cases h : kv.2 > acc.2
        · rw [if_pos h, max_eq_right h.le]
        · rw [if_neg h, max_eq_left (not_lt.mp h)]
      rw [hstep]

/-- C7: the raw overall deviation is the maximum of the seven per-metric
severities (never an average); the smoothed deviation moves only when the
raw value differs from it by more than the 0.03 deadband, and then by the
EMA `smoothed*0.75 + raw*0.25`; and a frame identical to the calibrated
reference has all seven severities zero and raw deviation zero. -/
theorem posture_deviation_spec (c i : PostureFrame) (sm rw : ℚ) :
    (rawDeviation c i = ((rawSeverities c i).map Prod.snd).foldl max 0)
    ∧ (updateSmoothedDeviation sm rw =
        if |rw - sm| > 0.03 then sm * 0.75 + rw * 0.25 else sm)
    ∧ ((rawSeverities c c).map Prod.snd = List.replicate 7 0)
    ∧ rawDeviation c c = 0 := by
  have hmax : ∀ c' i' : PostureFrame,
      rawDeviation c' i' = ((rawSeverities c' i').map Prod.snd).foldl max 0 := by
    intro c' i'
    rw [rawDeviation, worstMetric, foldWorst_eq_foldMax, List.foldl_map]
  have hzero : (rawSeverities c c).map Prod.snd = List.replicate 7 0 := by
    simp only [rawSeverities, List.map_cons, List.map_nil]
    norm_num [sub_self, abs_zero, List.replicate]
  refine ⟨hmax c i, rfl, hzero, ?_⟩
  rw [hmax c c, hzero]
  norm_num [List.replicate]

/-! ## C8: smoother seeding, EMA update, visibility handling -/

/-- C8 counterexample: on a second call of the posture-path smoother
(src/static/js/yoga-interpolation.js `smoothLandmarks`), the raw landmark
carries visibility 9/10 but the smoothed entry carries no visibility at all
(the update writes only x, y, z), so visibility is NOT passed through
unsmoothed on that path. -/
theorem smoothing_visibility_counterexample :
    smoothStepPosture LANDMARK_SMOOTH_FACTOR
        [some ⟨0, 0, some 0, some 1⟩] [some ⟨1, 1, some 0, some (9/10)⟩]
      = [some ⟨1/4, 1/4, some 0, none⟩]
    ∧ (none : Option ℚ) ≠ some (9/10) := by
  constructor
  · norm_num [smoothStepPosture, smoothZip, smoothLMPosture,
      LANDMARK_SMOOTH_FACTOR, LM.mk.injEq]
  · simp

/-- C8 amended: both smoothers seed with an exact copy of the input on the
first call after a reset; each present index is EMA-blended with factor 0.25
in x, y and z; an index missing from the raw frame keeps its prior smoothed
value; the session-path smoother passes visibility through unsmoothed while
the posture-path smoother drops the visibility property; and the
target-overlay path EMA-blends its centre and body height with factor
0.15. -/
theorem smoothLandmarks_spec (raw prev : List (Option LM)) (i : ℕ)
    (p : TargetPosition) (cx cy bh : ℚ) :
    smoothLandmarksSession none raw = raw
    ∧ smoothLandmarksPosture none raw = raw
    ∧ ((smoothStep smoothingFactor prev raw).getD i none =
        match prev.getD i none, raw.getD i none with
        | some s, some r =>
            some ⟨s.x * (1 - smoothingFactor) + r.x * smoothingFactor,
                  s.y * (1 - smoothingFactor) + r.y * smoothingFactor,
                  some ((s.z.getD 0) * (1 - smoothingFactor) + (r.z.getD 0) * smoothingFactor),
                  r.visibility⟩
        | s?, _ => s?)
    ∧ ((smoothStepPosture LANDMARK_SMOOTH_FACTOR prev raw).getD i none =
        match prev.getD i none, raw.getD i none with
        | some s, some r =>
            some ⟨s.x * (1 - LANDMARK_SMOOTH_FACTOR) + r.x * LANDMARK_SMOOTH_FACTOR,
                  s.y * (1 - LANDMARK_SMOOTH_FACTOR) + r.y * LANDMARK_SMOOTH_FACTOR,
                  some ((s.z.getD 0) * (1 - LANDMARK_SMOOTH_FACTOR) + (r.z.getD 0) * LANDMARK_SMOOTH_FACTOR),
                  none⟩
        | s?, _ => s?)
    ∧ updateSmoothedTargetPosition targetSmoothingFactor none cx cy bh = ⟨cx, cy, bh⟩
    ∧ updateSmoothedTargetPosition targetSmoothingFactor (some p) cx cy bh =
        ⟨p.centerX * (1 - targetSmoothingFactor) + cx * targetSmoothingFactor,
         p.centerY * (1 - targetSmoothingFactor) + cy * targetSmoothingFactor,
         p.bodyHeight * (1 - targetSmoothingFactor) + bh * targetSmoothingFactor⟩ := by
  refine ⟨rfl, rfl, ?_, ?_, rfl, rfl⟩
  · rw [smoothStep, smoothZip_getD]
    cases prev.getD i none <;> cases raw.getD i none <;> rfl
  · rw [smoothStepPosture, smoothZip_getD]
    cases prev.getD i none <;> cases raw.getD i none <;> rfl

/-! ## C9: best-variation score and tally tie behaviour -/

/-- The strict-inequality best-score fold computes the running maximum of
the per-variation scores, for any nonnegative starting accumulator. -/
theorem bestVariation_go (u : UserAngles) (variations : List Variation) :
    ∀ acc : ℚ × Option Variation, 0 ≤ acc.1 →
      (variations.foldl
        (fun acc v =>
          match v.reference_angles with
          | none => acc
          | some ra =>
              let score := calculateAngleMatch ra u
              if score > acc.1 then (score, some v) else acc) acc).1
      = (variations.map (variationScore u)).foldl max acc.1 := by
  induction variations with
  | nil => intro acc hacc; rfl
  | cons v vs ih =>
      intro acc hacc
      rw [List.map_cons, List.foldl_cons, List.foldl_cons]
      rcases hra : v.reference_angles with _ | ra
      · have h1 : variationScore u v = 0 := by rw [variationScore, hra]
        simp only [hra]
        rw [ih acc hacc, h1, max_eq_left hacc]
      · have h1 : variationScore u v = calculateAngleMatch ra u := by
          rw [variationScore, hra]
        simp only [hra]
        by_cases hgt : calculateAngleMatch ra u > acc.1
        · rw [if_pos hgt, ih _ (calculateAngleMatch_nonneg ra u), h1,
            max_eq_right hgt.le]
        · rw [if_neg hgt, ih acc hacc, h1, max_eq_left (not_lt.mp hgt)]

/-- The best score over a variation list is the maximum per-variation
angle-match score. -/
theorem bestVariation_fst (variations : List Variation) (u : UserAngles) :
    (bestVariation variations u).1 =
      (variations.map (variationScore u)).foldl max 0 := by
  rw [bestVariation]
  exact bestVariation_go u variations (0, none) le_rfl

/-- A variation whose single reference angle is 100 degrees. -/
def variationA : Variation :=
  ⟨"varA", "Pose A", some [("left_elbow_angle", some 100)]⟩

/-- A variation whose single reference angle is 50 degrees. -/
def variationB : Variation :=
  ⟨"varB", "Pose B", some [("left_elbow_angle", some 50)]⟩

/-- A frame whose extracted angle is 100 degrees (best match: variation A). -/
def frameA : UserAngles := fun _ => some 100

/-- A frame whose extracted angle is 50 degrees (best match: variation B). -/
def frameB : UserAngles := fun _ => some 50

/-- C9 counterexample: after frame A the label belongs to variation A (first
to reach count 1); frame B then ties the counts at 1 each, and the label
switches to variation B — the most recent variation to reach the maximum
count takes the label, so the variation that FIRST reached the maximum does
not keep it. -/
theorem variation_tie_counterexample :
    ((variationFrameStep [variationA, variationB] ⟨[], none⟩ frameA).2.label
        = some ("varA", "Pose A"))
    ∧ ((runVariationFrames [variationA, variationB] ⟨[], none⟩ [frameA, frameB]).label
        = some ("varB", "Pose B"))
    ∧ (some ("varB", "Pose B") ≠ some ("varA", "Pose A")) := by
  have hAA : calculateAngleMatch [("left_elbow_angle", some 100)] frameA = 100 := by
    have h : matchedDiffs [("left_elbow_angle", some 100)] frameA = [0] := by
      simp [matchedDiffs, foldedDiff, frameA]
    rw [calculateAngleMatch]
    norm_num [h]
  have hBA : calculateAngleMatch [("left_elbow_angle", some 50)] frameA = 200/3 := by
    have h : matchedDiffs [("left_elbow_angle", some 50)] frameA = [50] := by
      simp [matchedDiffs, foldedDiff, frameA]
      norm_num
    rw [calculateAngleMatch, h]
    norm_num
  have hAB : calculateAngleMatch [("left_elbow_angle", some 100)] frameB = 200/3 := by
    have h : matchedDiffs [("left_elbow_angle", some 100)] frameB = [50] := by
      simp [matchedDiffs, foldedDiff, frameB]
      norm_num
    rw [calculateAngleMatch, h]
    norm_num
  have hBB : calculateAngleMatch [("left_elbow_angle", some 50)] frameB = 100 := by
    have h : matchedDiffs [("left_elbow_angle", some 50)] frameB = [0] := by
      simp [matchedDiffs, foldedDiff, frameB]
    rw [calculateAngleMatch]
    norm_num [h]
  have hbestA : bestVariation [variationA, variationB] frameA
      = (100, some variationA) := by
    simp only [bestVariation, List.foldl_cons, List.foldl_nil, variationA, variationB]
    rw [hAA, hBA]
    norm_num
  have hbestB : bestVariation [variationA, variationB] frameB
      = (100, some variationB) := by
    simp only [bestVariation, List.foldl_cons, List.foldl_nil, variationA, variationB]
    rw [hAB, hBB]
    norm_num
  have hstep1 : (variationFrameStep [variationA, variationB] ⟨[], none⟩ frameA).2
      = ⟨[("varA", 1)], some ("varA", "Pose A")⟩ := by
    simp only [variationFrameStep]
    rw [hbestA]
    norm_num [updateVariationTracking, bumpCount, maxCount, variationA, List.lookup]
  have hstep2 : (variationFrameStep [variationA, variationB]
        ⟨[("varA", 1)], some ("varA", "Pose A")⟩ frameB).2
      = ⟨[("varA", 1), ("varB", 1)], some ("varB", "Pose B")⟩ := by
    simp only [variationFrameStep]
    rw [hbestB]
    norm_num [updateVariationTracking, bumpCount, maxCount, variationB, List.lookup]
    decide
  refine ⟨?_, ?_, by simp⟩
  · rw [hstep1]
  · rw [runVariationFrames, hstep1, runVariationFrames, hstep2, runVariationFrames]

/-- C9 amended: the per-frame match score is the maximum of the angle-match
scores over the declared variations; on a frame whose best score is at least
45 the best variation's tally is bumped and the session-long label switches
to that variation exactly when its new count equals the running maximum (so
on ties the most recent best match takes the label); frames scoring below 45
or with no best variation leave the tally and label unchanged. -/
theorem variation_matching_spec (variations : List Variation) (u : UserAngles)
    (t : VariationTally) (v : Variation) (score : ℚ) :
    ((variationFrameStep variations t u).1 =
      (variations.map (variationScore u)).foldl max 0)
    ∧ (score ≥ 45 →
        updateVariationTracking t score (some v) =
          ⟨bumpCount t.counts v.vid,
           if ((bumpCount t.counts v.vid).lookup v.vid).getD 0
              = maxCount (bumpCount t.counts v.vid)
           then some (v.vid, v.vname) else t.label⟩)
    ∧ (¬score ≥ 45 → updateVariationTracking t score (some v) = t)
    ∧ updateVariationTracking t score none = t := by
  refine ⟨bestVariation_fst variations u, ?_, ?_, rfl⟩
  · intro h
    rw [updateVariationTracking]
    simp only [if_pos h]
    split_ifs <;> rfl
  · intro h
    rw [updateVariationTracking]
    simp only [if_neg h]

/-- C9 witness: a frame at score 50 bumps the tally and takes the label; a
frame at score 40 changes nothing. -/
theorem variation_matching_spec_witness :
    updateVariationTracking ⟨[], none⟩ 50 (some variationA)
      = ⟨[("varA", 1)], some ("varA", "Pose A")⟩
    ∧ updateVariationTracking ⟨[], none⟩ 40 (some variationA) = ⟨[], none⟩ := by
  have h1 := variation_matching_spec [variationA] frameA ⟨[], none⟩ variationA 50
  have h2 := variation_matching_spec [variationA] frameA ⟨[], none⟩ variationA 40
  constructor
  · rw [h1.2.1 (by norm_num)]
    norm_num [bumpCount, maxCount, variationA, List.lookup]
  · exact h2.2.2.1 (by norm_num)

/-! ## C10: invalid-geometry handling -/

/-- C10 counterexample: a raw frame whose x-coordinate is NaN passes the
existence-only guard of the smoothing loop (`rawLandmarks[i] &&
this.smoothedLandmarks[i]`), and the NaN is blended straight into the
smoothed landmark state — it is not detected before the update and the
frame is not skipped. -/
theorem nan_propagation_counterexample :
    smoothStepJs smoothingFactor
        [some ⟨.val 0, .val 0, some (.val 0), some (.val 1)⟩]
        [some ⟨.nan, .val 1, some (.val 0), some (.val 1)⟩]
      = [some ⟨.nan, .val (1/4), some (.val 0), some (.val 1)⟩] := by
  have hy : ((JsNum.val 0).mul (.val (1 - smoothingFactor))).add
      ((JsNum.val 1).mul (.val smoothingFactor)) = .val (1/4) := by
    norm_num [JsNum.mul, JsNum.add, smoothingFactor]
  have hz : ((jsOrZero (some (.val 0))).mul (.val (1 - smoothingFactor))).add
      ((jsOrZero (some (.val 0))).mul (.val smoothingFactor)) = .val 0 := by
    norm_num [JsNum.mul, JsNum.add, jsOrZero, smoothingFactor]
  simp only [smoothStepJs, smoothZip, smoothLMJs]
  rw [hy, hz]
  simp [JsNum.mul, JsNum.add]

/-- C10 amended: the guards that exist cover missing data, not invalid
numbers: an index absent from the raw frame leaves the prior smoothed value
unchanged, and the `isValidCoord` guard — present only in the target-overlay
renderer `drawTargetPose`, not on the scoring or smoothing path — rejects
NaN and accepts every finite value; NaN coordinates reaching the smoothing
loop are absorbed by JavaScript arithmetic instead of being rejected. -/
theorem invalid_geometry_spec (prev raw : List (Option LMJs)) (i : ℕ) (q a : ℚ) :
    (raw.getD i none = none →
      (smoothStepJs smoothingFactor prev raw).getD i none = prev.getD i none)
    ∧ isValidCoord JsNum.nan = false
    ∧ isValidCoord (.val q) = true
    ∧ (JsNum.nan.mul (.val a)).add ((JsNum.val q).mul (.val a)) = JsNum.nan
    ∧ jsOrZero (some JsNum.nan) = .val 0 := by
  refine ⟨?_, rfl, rfl, rfl, rfl⟩
  intro h
  rw [smoothStepJs, smoothZip_getD, h]
  cases prev.getD i none <;> rfl

/-- C10 witness: with an empty raw frame, index 0 of the smoothed state is
left exactly as it was. -/
theorem invalid_geometry_spec_witness :
    (smoothStepJs smoothingFactor
        [some ⟨.val 2, .val 3, some (.val 0), none⟩] []).getD 0 none
      = some ⟨.val 2, .val 3, some (.val 0), none⟩ := by
  have h := invalid_geometry_spec
    [some ⟨.val 2, .val 3, some (.val 0), none⟩] [] 0 0 0
  exact h.1 rfl
